import Mathlib

/-!
Shallow embedding of `brother_ql_web.py`, a bottle-based web front-end for
Brother QL label printers.  The external collaborators (the `brother_ql`
raster library, PIL, and the backend transport) are modelled as opaque
parameters collected in an `Env` record; everything defined in the source
file itself is translated directly.
-/

namespace BrotherQLWeb

/-- `IMAGE_EXTENSIONS = ['.png', '.jpg', '.jpeg', '.bmp']` (line 21). -/
def IMAGE_EXTENSIONS : List String := [".png", ".jpg", ".jpeg", ".bmp"]

/-- CPython `str.rfind` on a single character over a character list:
index of the last occurrence, `-1` if absent. -/
def rfind : List Char → Char → Int
  | [], _ => -1
  | x :: xs, c =>
    let r := rfind xs c
    if r ≥ 0 then r + 1
    else if x = c then 0 else -1

/-- CPython `posixpath.splitext`: split `p` into `(root, ext)`.
`sepIndex = p.rfind('/')`, `dotIndex = p.rfind('.')`; the split happens at
`dotIndex` iff `dotIndex > sepIndex` and some character strictly between
`sepIndex` and `dotIndex` is not a dot (leading dots of the basename are
not extension separators). -/
def splitext (p : String) : String × String :=
  let cs := p.data
  let sepIndex := rfind cs '/'
  let dotIndex := rfind cs '.'
  if dotIndex > sepIndex ∧
      ((cs.drop (sepIndex + 1).toNat).take (dotIndex - (sepIndex + 1)).toNat).any (· ≠ '.') then
    (⟨cs.take dotIndex.toNat⟩, ⟨cs.drop dotIndex.toNat⟩)
  else
    (p, "")

/-- One entry of the image directory as seen by `os.listdir`: a name and
whether `os.path.isfile` holds for it (directories and other non-regular
entries have `isFile = false`). -/
structure DirEntry where
  name : String
  isFile : Bool
  deriving DecidableEq, Repr

/-- `update_files()` (lines 135-137): rescan the image directory and keep the
names that are regular files with an allow-listed extension. -/
def update_files (dir : List DirEntry) : List String :=
  (dir.filter (fun f => f.isFile && IMAGE_EXTENSIONS.contains (splitext f.name).2)).map
    (fun f => f.name)

/-- `image_exists(image_name)` (lines 81-83): refresh `FILE_NAMES`, then test
membership. -/
def image_exists (dir : List DirEntry) (image_name : String) : Bool :=
  (update_files dir).contains image_name

/-- `d.get(key, default)` on the UTF-8 decoded form data: first binding of
`key` in the request parameters, or the default. -/
def paramGet (d : List (String × String)) (key dflt : String) : String :=
  match d.find? (fun p => p.1 = key) with
  | some p => p.2
  | none => dflt

/-- A CPython exception object: its type name and its `args` tuple.
Builtin exceptions expose `args` but define no `msg` attribute. -/
structure PyExc where
  excType : String
  args : List String
  deriving DecidableEq, Repr

/-- Attribute access `e.msg` on the caught `LookupError` (lines 92, 121, 164).
The only `LookupError` the handlers can catch here is the `KeyError` raised
by `label_type_specs[...]`, and CPython `KeyError` objects carry `args` but
no `msg` attribute, so the access itself raises `AttributeError`. -/
def excMsgAttr (e : PyExc) : Except PyExc String :=
  .error ⟨"AttributeError", [e.excType ++ " object has no attribute msg"]⟩

/-- Label kind constants from `brother_ql.devicedependent` (line 14); the
exact numeric values are external, only their distinctness matters. -/
def ENDLESS_LABEL : Nat := 1

def DIE_CUT_LABEL : Nat := 2

def ROUND_DIE_CUT_LABEL : Nat := 3

/-- The per-request label context built by `get_label_context` (lines 71-76). -/
structure LabelContext where
  file_name : String
  label_size : String
  kind : Nat
  orientation : String
  deriving DecidableEq, Repr

/-- `get_label_context(request)` (lines 66-78).  The catalog
`label_type_specs` is external; looking up an unknown `label_size` key
raises `KeyError(size)`, a `LookupError`. -/
def get_label_context (catalog : String → Option Nat) (d : List (String × String)) :
    Except PyExc LabelContext :=
  let size := paramGet d "label_size" "62"
  match catalog size with
  | none => .error ⟨"KeyError", [size]⟩
  | some k =>
      .ok { file_name := paramGet d "file_name" "image.png"
            label_size := size
            kind := k
            orientation := paramGet d "orientation" "standard" }

/-- The rotation directive handed to `create_label` (lines 174-180). -/
inductive Rotate where
  | deg (n : Nat)
  | auto
  deriving DecidableEq, Repr

/-- The kind-to-rotation dispatch of `print_image` (lines 174-177).  It is
not total: when the kind is neither endless nor (round) die-cut, no branch
assigns `rotate`, and the later read of `rotate` is an unbound-local use. -/
def rotateFor (kind : Nat) (orientation : String) : Option Rotate :=
  if kind = ENDLESS_LABEL then
    some (.deg (if orientation = "standard" then 0 else 90))
  else if kind = ROUND_DIE_CUT_LABEL ∨ kind = DIE_CUT_LABEL then
    some .auto
  else
    none

/-- The PIL transpose operations used by the preview handler (lines 100-103). -/
inductive Transpose where
  | rotate90
  | rotate270
  deriving DecidableEq, Repr

/-- Preview rotation selection (lines 100-103): only the exact strings
`rotated+90` and `rotated-90` trigger a transpose. -/
def previewTranspose (orientation : String) : Option Transpose :=
  if orientation = "rotated+90" then some .rotate90
  else if orientation = "rotated-90" then some .rotate270
  else none

/-- `choices=('standard', 'rotated')` of `--default-orientation` (line 206). -/
def defaultOrientationChoices : List String := ["standard", "rotated"]

/-- The RFC 4648 base64 alphabet used by `base64.b64encode`. -/
def b64Alphabet : List Char :=
  "ABCDEFGHIJKLMNOPQRSTUVWXYZabcdefghijklmnopqrstuvwxyz0123456789+/".data

/-- The character encoding a 6-bit group. -/
def b64Char (n : Nat) : Char := b64Alphabet.getD n 'A'

/-- `base64.b64encode`: standard base64 with `=` padding, 3 input bytes to
4 output characters. -/
def b64encode : List Nat → List Char
  | [] => []
  | [a] =>
      let x := a % 256
      [b64Char (x / 4), b64Char (x % 4 * 16), '=', '=']
  | [a, b] =>
      let x := a % 256
      let y := b % 256
      [b64Char (x / 4), b64Char (x % 4 * 16 + y / 16), b64Char (y % 16 * 4), '=']
  | a :: b :: c :: rest =>
      let x := a % 256
      let y := b % 256
      let z := c % 256
      b64Char (x / 4) :: b64Char (x % 4 * 16 + y / 16) ::
        b64Char (y % 16 * 4 + z / 64) :: b64Char (z % 64) :: b64encode rest

/-- The 6-bit value of a base64 character, `none` for a non-alphabet
character (including the pad `=`). -/
def b64CharVal (c : Char) : Option Nat :=
  let i := b64Alphabet.indexOf c
  if i < 64 then some i else none

/-- `base64.b64decode`: 4 characters to 3 bytes, with `=` padding allowed
only in the final quantum. -/
def b64decode : List Char → Option (List Nat)
  | [] => some []
  | p :: q :: r :: s :: rest =>
      match b64CharVal p, b64CharVal q with
      | some vp, some vq =>
          if r = '=' ∧ s = '=' ∧ rest = [] then
            some [vp * 4 + vq / 16]
          else
            match b64CharVal r with
            | some vr =>
                if s = '=' ∧ rest = [] then
                  some [vp * 4 + vq / 16, vq % 16 * 16 + vr / 4]
                else
                  match b64CharVal s, b64decode rest with
                  | some vs, some bs =>
                      some ((vp * 4 + vq / 16) :: (vq % 16 * 16 + vr / 4) ::
                        (vr % 4 * 64 + vs) :: bs)
                  | _, _ => none
            | none => none
      | _, _ => none
  | _ => none

/-- The external collaborators, bundled: the `label_type_specs` catalog, the
process-wide configuration and debug flag, PIL image handling, the raster
encoder, and the backend transport.  `Image` is the (opaque) PIL image type. -/
structure Env (Image : Type) where
  /-- `label_type_specs[size]['kind']`: `none` when `size` is not a key. -/
  catalog : String → Option Nat
  /-- `DEBUG` global, set in `main` from the log level. -/
  debug : Bool
  /-- `CONFIG['PRINTER']['MODEL']`. -/
  printerModel : String
  /-- `CONFIG['PRINTER']['PRINTER']`. -/
  printerAddr : String
  /-- `Image.open(os.path.join(IMG_DIR, name))`: the image content is a
  function of the file name on disk. -/
  openImage : String → Image
  /-- `im.transpose(Image.ROTATE_90 / ROTATE_270)`. -/
  transposeIm : Transpose → Image → Image
  /-- `image_to_png_bytes(im)` (lines 140-144): PNG serialisation via PIL,
  yielding a byte string. -/
  pngBytes : Image → List Nat
  /-- `BrotherQLRaster(model)` + `create_label(qlr, im, size, cut, rotate)`
  followed by reading `qlr.data`: the encoded raster byte buffer. -/
  rasterData : String → Image → String → Bool → Rotate → List Nat
  /-- Python `str()` applied to the raster byte buffer (line 194). -/
  strOfData : List Nat → String
  /-- `BACKEND_CLASS(CONFIG['PRINTER']['PRINTER'])`: constructing the
  transport, which may raise (error = `str(e)`). -/
  backendCtor : String → Except String Unit
  /-- `be.write(qlr.data)`: transmitting the bytes, which may raise. -/
  backendWrite : String → List Nat → Except String Unit
  /-- `be.dispose()`, which may raise. -/
  backendDispose : String → Except String Unit

/-- What a request to `/api/preview/image` produces (lines 86-112). -/
inductive PreviewOutcome where
  /-- A plain string body (the error-message paths). -/
  | body (s : String)
  /-- Raw PNG bytes with content-type `image/png`. -/
  | png (bytes : List Nat)
  /-- `base64.b64encode(...)` of the PNG bytes, content-type `text/plain`. -/
  | base64Text (chars : List Char)
  /-- An exception escaping the handler (the server answers with an error page). -/
  | uncaught (e : PyExc)
  deriving DecidableEq, Repr

/-- `get_preview_image()` (lines 86-112).  `return_format` is
`request.query.get('return_format', 'png')`. -/
def get_preview_image {Image : Type} (env : Env Image) (dir : List DirEntry)
    (d : List (String × String)) (return_format : String) : PreviewOutcome :=
  match get_label_context env.catalog d with
  | .error e =>
      match excMsgAttr e with
      | .ok m => .body m
      | .error e2 => .uncaught e2
  | .ok context =>
      if ¬ image_exists dir context.file_name then
        .body "Image not in directory"
      else
        let im := env.openImage context.file_name
        let im := match previewTranspose context.orientation with
          | some t => env.transposeIm t im
          | none => im
        if return_format = "base64" then
          .base64Text (b64encode (env.pngBytes im))
        else
          .png (env.pngBytes im)

/-- What a request to `/api/delete/image` produces (lines 115-132), paired
with the directory state after the request. -/
inductive DeleteOutcome where
  | body (s : String)
  | redirect (target : String)
  | uncaught (e : PyExc)
  deriving DecidableEq, Repr

/-- `os.remove` of a directory entry by name. -/
def removeFile (dir : List DirEntry) (name : String) : List DirEntry :=
  dir.filter (fun e => e.name ≠ name)

/-- `delete_image()` (lines 115-132). -/
def delete_image {Image : Type} (env : Env Image) (dir : List DirEntry)
    (d : List (String × String)) : DeleteOutcome × List DirEntry :=
  match get_label_context env.catalog d with
  | .error e =>
      match excMsgAttr e with
      | .ok m => (.body m, dir)
      | .error e2 => (.uncaught e2, dir)
  | .ok context =>
      if ¬ image_exists dir context.file_name then
        (.body "Image not in directory", dir)
      else
        (.redirect "/labeldesigner", removeFile dir context.file_name)

/-- A multipart upload: the client-supplied filename (the content itself is
irrelevant to the control flow). -/
structure Upload where
  filename : String
  deriving DecidableEq, Repr

/-- `upload.save(file_path)`: write a regular file under `name`, silently
overwriting a same-named entry. -/
def saveFile (dir : List DirEntry) (name : String) : List DirEntry :=
  if dir.any (fun e => e.name = name) then
    dir.map (fun e => if e.name = name then ⟨name, true⟩ else e)
  else
    dir ++ [⟨name, true⟩]

/-- What `/upload` produces. -/
inductive UploadResult where
  | errorMsg (s : String)
  | redirect (target : String)
  deriving DecidableEq, Repr

/-- The state after `do_upload` (lines 50-63): the response, the directory,
and the `FILE_NAMES` global. -/
structure UploadOutcome where
  result : UploadResult
  dir : List DirEntry
  file_names : List String
  deriving DecidableEq, Repr

/-- `do_upload()` (lines 50-63): reject a non-allow-listed extension with a
plain message, otherwise save under the original filename, refresh
`FILE_NAMES`, and redirect. -/
def do_upload (dir : List DirEntry) (file_names : List String) (upload : Upload) :
    UploadOutcome :=
  let ext := (splitext upload.filename).2
  if ¬ IMAGE_EXTENSIONS.contains ext then
    ⟨.errorMsg "File extension not allowed.", dir, file_names⟩
  else
    let dir2 := saveFile dir upload.filename
    ⟨.redirect "/labeldesigner", dir2, update_files dir2⟩

/-- The JSON-like `return_dict` of `print_image`: the keys it may carry. -/
structure PrintResult where
  success : Bool
  message : Option String := none
  error : Option String := none
  data : Option String := none
  deriving DecidableEq, Repr

/-- Observable side effects of one `print_image` request on the external
collaborators. -/
structure PrintEffects where
  /-- The rotation directive passed to `create_label`, if it was called. -/
  rasterRotate : Option Rotate := none
  /-- Whether `BACKEND_CLASS(...)` produced a transport instance. -/
  backendConstructed : Bool := false
  /-- Whether `be.write(...)` was invoked. -/
  writeInvoked : Bool := false
  /-- The bytes successfully transmitted, if any. -/
  bytesTransmitted : Option (List Nat) := none
  deriving DecidableEq, Repr

/-- What a request to `/api/print/image` produces. -/
inductive PrintOutcome where
  /-- The returned JSON dict, with the effects of the request. -/
  | ok (r : PrintResult) (eff : PrintEffects)
  /-- An exception escaping the handler, with the effects up to that point. -/
  | uncaught (e : PyExc) (eff : PrintEffects)
  deriving DecidableEq, Repr

/-- The effects component of a print outcome. -/
def PrintOutcome.effects : PrintOutcome → PrintEffects
  | .ok _ eff => eff
  | .uncaught _ eff => eff

/-- `print_image()` (lines 147-195). -/
def print_image {Image : Type} (env : Env Image) (dir : List DirEntry)
    (d : List (String × String)) : PrintOutcome :=
  match get_label_context env.catalog d with
  | .error e =>
      match excMsgAttr e with
      | .ok m => .ok { success := false, error := some m } {}
      | .error e2 => .uncaught e2 {}
  | .ok context =>
      if ¬ image_exists dir context.file_name then
        .ok { success := false, message := some "Image not in directory" } {}
      else
        let im := env.openImage context.file_name
        match rotateFor context.kind context.orientation with
        | none =>
            .uncaught ⟨"NameError", ["name rotate is not defined"]⟩ {}
        | some rotate =>
            let data := env.rasterData env.printerModel im context.label_size true rotate
            let eff0 : PrintEffects := { rasterRotate := some rotate }
            if ¬ env.debug then
              match env.backendCtor env.printerAddr with
              | .error e =>
                  .ok { success := false, message := some e } eff0
              | .ok _ =>
                  match env.backendWrite env.printerAddr data with
                  | .error e =>
                      .ok { success := false, message := some e }
                        { eff0 with backendConstructed := true, writeInvoked := true }
                  | .ok _ =>
                      match env.backendDispose env.printerAddr with
                      | .error e =>
                          .ok { success := false, message := some e }
                            { eff0 with backendConstructed := true, writeInvoked := true,
                                        bytesTransmitted := some data }
                      | .ok _ =>
                          .ok { success := true }
                            { eff0 with backendConstructed := true, writeInvoked := true,
                                        bytesTransmitted := some data }
            else
              .ok { success := true, data := some (env.strOfData data) } eff0

/-! Helper lemmas (shared; not claim theorems). -/

theorem b64CharVal_b64Char : ∀ n, n < 64 → b64CharVal (b64Char n) = some n := by decide

theorem b64Char_ne_pad : ∀ n, n < 64 → b64Char n ≠ '=' := by decide

theorem b64decode_pad2 (v1 v2 : Nat) (h1 : v1 < 64) (h2 : v2 < 64) :
    b64decode [b64Char v1, b64Char v2, '=', '='] = some [v1 * 4 + v2 / 16] := by
  simp only [b64decode]
  rw [b64CharVal_b64Char _ h1, b64CharVal_b64Char _ h2]
  simp

theorem b64decode_pad1 (v1 v2 v3 : Nat) (h1 : v1 < 64) (h2 : v2 < 64) (h3 : v3 < 64) :
    b64decode [b64Char v1, b64Char v2, b64Char v3, '='] =
      some [v1 * 4 + v2 / 16, v2 % 16 * 16 + v3 / 4] := by
  simp only [b64decode]
  simp only [b64CharVal_b64Char _ h1, b64CharVal_b64Char _ h2]
  rw [if_neg (fun hco => b64Char_ne_pad _ h3 hco.1)]
  simp only [b64CharVal_b64Char _ h3]
  simp

theorem b64decode_chunk (v1 v2 v3 v4 : Nat) (h1 : v1 < 64) (h2 : v2 < 64)
    (h3 : v3 < 64) (h4 : v4 < 64) (l : List Char) (bs : List Nat)
    (hl : b64decode l = some bs) :
    b64decode (b64Char v1 :: b64Char v2 :: b64Char v3 :: b64Char v4 :: l) =
      some ((v1 * 4 + v2 / 16) :: (v2 % 16 * 16 + v3 / 4) :: (v3 % 4 * 64 + v4) :: bs) := by
  simp only [b64decode]
  simp only [b64CharVal_b64Char _ h1, b64CharVal_b64Char _ h2]
  rw [if_neg (fun hco => b64Char_ne_pad _ h3 hco.1)]
  simp only [b64CharVal_b64Char _ h3]
  rw [if_neg (fun hco => b64Char_ne_pad _ h4 hco.1)]
  simp only [b64CharVal_b64Char _ h4, hl]

theorem b64decode_b64encode :
    ∀ (l : List Nat), (∀ b ∈ l, b < 256) → b64decode (b64encode l) = some l
  | [], _ => by simp [b64encode, b64decode]
  | [a], h => by
      have ha : a < 256 := h a (by simp)
      simp only [b64encode]
      rw [b64decode_pad2 _ _ (by omega) (by omega)]
      simp only [Option.some.injEq, List.cons.injEq]
      exact ⟨by omega, trivial⟩
  | [a, b], h => by
      have ha : a < 256 := h a (by simp)
      have hb : b < 256 := h b (by simp)
      simp only [b64encode]
      rw [b64decode_pad1 _ _ _ (by omega) (by omega) (by omega)]
      simp only [Option.some.injEq, List.cons.injEq]
      exact ⟨by omega, by omega, trivial⟩
  | a :: b :: c :: rest, h => by
      have ha : a < 256 := h a (by simp)
      have hb : b < 256 := h b (by simp)
      have hc : c < 256 := h c (by simp)
      have ih := b64decode_b64encode rest (fun x hx => h x (by simp [hx]))
      simp only [b64encode]
      rw [b64decode_chunk _ _ _ _ (by omega) (by omega) (by omega) (by omega) _ _ ih]
      simp only [Option.some.injEq, List.cons.injEq]
      exact ⟨by omega, by omega, by omega, trivial⟩

theorem image_exists_iff_mem (dir : List DirEntry) (fn : String) :
    image_exists dir fn = true ↔ fn ∈ update_files dir := by
  simp [image_exists]

theorem print_image_rasterRotate {Image : Type} (env : Env Image) (dir : List DirEntry)
    (d : List (String × String)) (ctx : LabelContext) (rot : Rotate)
    (hctx : get_label_context env.catalog d = .ok ctx)
    (hex : image_exists dir ctx.file_name = true)
    (hrot : rotateFor ctx.kind ctx.orientation = some rot) :
    (print_image env dir d).effects.rasterRotate = some rot := by
  simp only [print_image, hctx, hex, hrot, Bool.not_true, if_false]
  by_cases hdbg : env.debug
  · simp [hdbg, PrintOutcome.effects]
  · simp only [Bool.not_eq_true] at hdbg
    simp only [hdbg, Bool.not_false, if_true]
    cases env.backendCtor env.printerAddr with
    | error e => simp [PrintOutcome.effects]
    | ok u =>
        cases env.backendWrite env.printerAddr
            (env.rasterData env.printerModel (env.openImage ctx.file_name) ctx.label_size true rot) with
        | error e => simp [PrintOutcome.effects]
        | ok u =>
            cases env.backendDispose env.printerAddr with
            | error e => simp [PrintOutcome.effects]
            | ok u => simp [PrintOutcome.effects]

/-! Concrete fixtures, used by witnesses and counterexamples. -/

/-- A small stand-in for `label_type_specs`: `62` is an endless size,
`29x90` a die-cut size, `d24` a round die-cut size, and `odd` a size whose
kind is none of the three families. -/
def testCatalog : String → Option Nat := fun s =>
  if s = "62" then some ENDLESS_LABEL
  else if s = "29x90" then some DIE_CUT_LABEL
  else if s = "d24" then some ROUND_DIE_CUT_LABEL
  else if s = "odd" then some 7
  else none

/-- A debug-mode environment over a trivial image type. -/
def testEnv : Env Unit :=
  { catalog := testCatalog
    debug := true
    printerModel := "QL-500"
    printerAddr := "file:///dev/usb/lp0"
    openImage := fun _ => ()
    transposeIm := fun _ _ => ()
    pngBytes := fun _ => [137, 80, 78, 71]
    rasterData := fun _ _ _ _ _ => [27, 64, 77]
    strOfData := fun _ => "raster-bytes"
    backendCtor := fun _ => .ok ()
    backendWrite := fun _ _ => .ok ()
    backendDispose := fun _ => .ok () }

/-- The same environment outside debug mode. -/
def testEnvLive : Env Unit := { testEnv with debug := false }

/-- The live environment with a failing backend `write`. -/
def testEnvBroken : Env Unit :=
  { testEnvLive with backendWrite := fun _ _ => .error "usb write failed" }

/-- An image directory holding one printable image. -/
def testDir : List DirEntry := [⟨"image.png", true⟩, ⟨"notes.txt", true⟩, ⟨"sub.png", false⟩]

/-! Claim theorems. -/

/-- Claim C1: for a print request with a parsed label context and an existing
image, the rotation directive passed to the raster encoder is 0 for endless
labels with orientation `standard`, 90 for endless labels with any other
orientation, and `auto` for die-cut and round die-cut labels regardless of
orientation. -/
theorem print_rotation_dispatch {Image : Type} (env : Env Image) (dir : List DirEntry)
    (d : List (String × String)) (ctx : LabelContext)
    (hctx : get_label_context env.catalog d = .ok ctx)
    (hex : image_exists dir ctx.file_name = true) :
    (ctx.kind = ENDLESS_LABEL →
      (print_image env dir d).effects.rasterRotate =
        some (.deg (if ctx.orientation = "standard" then 0 else 90))) ∧
    (ctx.kind = DIE_CUT_LABEL ∨ ctx.kind = ROUND_DIE_CUT_LABEL →
      (print_image env dir d).effects.rasterRotate = some .auto) := by
  constructor
  · intro hk
    refine print_image_rasterRotate env dir d ctx _ hctx hex ?_
    simp [rotateFor, hk]
  · intro hk
    refine print_image_rasterRotate env dir d ctx _ hctx hex ?_
    rcases hk with hk | hk <;>
      simp [rotateFor, hk, ENDLESS_LABEL, DIE_CUT_LABEL, ROUND_DIE_CUT_LABEL]

/-- Witness for C1: a concrete endless-label request with a non-standard
orientation gets rotation directive 90, and a concrete die-cut request with
the same orientation gets `auto`. -/
theorem print_rotation_dispatch_witness :
    (print_image testEnv testDir
        [("label_size", "62"), ("orientation", "rotated")]).effects.rasterRotate =
      some (.deg 90) ∧
    (print_image testEnv testDir
        [("label_size", "29x90"), ("orientation", "rotated")]).effects.rasterRotate =
      some .auto := by
  constructor
  · have h := print_rotation_dispatch testEnv testDir
      [("label_size", "62"), ("orientation", "rotated")]
      ⟨"image.png", "62", ENDLESS_LABEL, "rotated"⟩ rfl (by decide)
    simpa using h.1 rfl
  · have h := print_rotation_dispatch testEnv testDir
      [("label_size", "29x90"), ("orientation", "rotated")]
      ⟨"image.png", "29x90", DIE_CUT_LABEL, "rotated"⟩ rfl (by decide)
    simpa using h.2 (Or.inl rfl)

/-- Claim C2: a print request naming a file that is not in the image store
returns `success = false` with a populated message, and the backend
transport is never constructed and its write never invoked. -/
theorem print_missing_image {Image : Type} (env : Env Image) (dir : List DirEntry)
    (d : List (String × String)) (ctx : LabelContext)
    (hctx : get_label_context env.catalog d = .ok ctx)
    (hex : image_exists dir ctx.file_name = false) :
    print_image env dir d =
      .ok { success := false, message := some "Image not in directory" }
        { rasterRotate := none, backendConstructed := false,
          writeInvoked := false, bytesTransmitted := none } := by
  simp [print_image, hctx, hex]

/-- Witness for C2: printing `missing.png`, which the scan of `testDir` does
not contain, is rejected without touching the backend. -/
theorem print_missing_image_witness :
    print_image testEnvLive testDir [("file_name", "missing.png")] =
      .ok { success := false, message := some "Image not in directory" }
        { rasterRotate := none, backendConstructed := false,
          writeInvoked := false, bytesTransmitted := none } :=
  print_missing_image testEnvLive testDir [("file_name", "missing.png")]
    ⟨"missing.png", "62", ENDLESS_LABEL, "standard"⟩ rfl (by decide)

/-- Claim C3: in debug mode, a print request that reaches the encoder never
constructs the backend and transmits nothing, and its response has
`success = true` together with a `data` field echoing the encoded raster
byte buffer as text. -/
theorem print_debug_echo {Image : Type} (env : Env Image) (dir : List DirEntry)
    (d : List (String × String)) (ctx : LabelContext) (rot : Rotate)
    (hdbg : env.debug = true)
    (hctx : get_label_context env.catalog d = .ok ctx)
    (hex : image_exists dir ctx.file_name = true)
    (hrot : rotateFor ctx.kind ctx.orientation = some rot) :
    print_image env dir d =
      .ok { success := true, message := none, error := none,
            data := some (env.strOfData (env.rasterData env.printerModel
              (env.openImage ctx.file_name) ctx.label_size true rot)) }
        { rasterRotate := some rot, backendConstructed := false,
          writeInvoked := false, bytesTransmitted := none } := by
  simp [print_image, hctx, hex, hrot, hdbg]

/-- Witness for C3: a concrete debug-mode print request echoes the buffer
and leaves the backend untouched. -/
theorem print_debug_echo_witness :
    print_image testEnv testDir [] =
      .ok { success := true, message := none, error := none,
            data := some "raster-bytes" }
        { rasterRotate := some (.deg 0), backendConstructed := false,
          writeInvoked := false, bytesTransmitted := none } :=
  print_debug_echo testEnv testDir [] ⟨"image.png", "62", ENDLESS_LABEL, "standard"⟩
    (.deg 0) rfl rfl (by decide) (by decide)

/-- Counterexample to C4 as stated: for the unknown label size `99`, the
print handler does not return an object with `success = false` and a
message — no object is returned at all, because formatting the caught
`KeyError` evaluates `e.msg`, an attribute `KeyError` does not have, and the
resulting `AttributeError` escapes the handler. -/
theorem print_failure_fields_counterexample :
    print_image testEnv testDir [("label_size", "99")] =
      .uncaught ⟨"AttributeError", ["KeyError object has no attribute msg"]⟩
        { rasterRotate := none, backendConstructed := false,
          writeInvoked := false, bytesTransmitted := none } ∧
    ∀ r eff, print_image testEnv testDir [("label_size", "99")] ≠ .ok r eff := by
  refine ⟨rfl, ?_⟩
  intro r eff h
  rw [(rfl : print_image testEnv testDir [("label_size", "99")] =
      .uncaught ⟨"AttributeError", ["KeyError object has no attribute msg"]⟩
        { rasterRotate := none, backendConstructed := false,
          writeInvoked := false, bytesTransmitted := none })] at h
  exact PrintOutcome.noConfusion h

/-- Claim C4 (amended): the print handler returns `success = true` on
completion, and `success = false` with a populated message on a missing
image or a caught backend exception; but on a parameter/lookup error during
context parsing it returns no object at all — evaluating `e.msg` on the
caught `KeyError` raises an uncaught `AttributeError` (and the value would
have been placed under an `error` key, not `message`, anyway). -/
theorem print_success_reporting {Image : Type} (env : Env Image) (dir : List DirEntry)
    (d : List (String × String)) :
    (∀ e, get_label_context env.catalog d = .error e →
      print_image env dir d =
        .uncaught ⟨"AttributeError", [e.excType ++ " object has no attribute msg"]⟩
          { rasterRotate := none, backendConstructed := false,
            writeInvoked := false, bytesTransmitted := none }) ∧
    (∀ r eff, print_image env dir d = .ok r eff → r.success = false →
      r.message.isSome = true) ∧
    (∀ ctx rot, get_label_context env.catalog d = .ok ctx →
      image_exists dir ctx.file_name = true →
      rotateFor ctx.kind ctx.orientation = some rot →
      (env.debug = true →
        ∃ eff dstr, print_image env dir d =
          .ok { success := true, message := none, error := none, data := dstr } eff) ∧
      (env.debug = false →
        env.backendCtor env.printerAddr = .ok () →
        env.backendWrite env.printerAddr (env.rasterData env.printerModel
          (env.openImage ctx.file_name) ctx.label_size true rot) = .ok () →
        env.backendDispose env.printerAddr = .ok () →
        ∃ eff, print_image env dir d = .ok { success := true } eff) ∧
      (env.debug = false → ∀ emsg,
        env.backendCtor env.printerAddr = .ok () →
        env.backendWrite env.printerAddr (env.rasterData env.printerModel
          (env.openImage ctx.file_name) ctx.label_size true rot) = .error emsg →
        ∃ eff, print_image env dir d = .ok { success := false, message := some emsg } eff)) := by
  refine ⟨?_, ?_, ?_⟩
  · intro e he
    simp [print_image, he, excMsgAttr]
  · intro r eff hok hfail
    simp only [print_image, excMsgAttr] at hok
    repeat' split at hok
    all_goals
      first
        | exact PrintOutcome.noConfusion hok
        | (injection hok with h1 h2
           subst h1
           simp_all)
  · intro ctx rot hctx hex hrot
    refine ⟨?_, ?_, ?_⟩
    · intro hdbg
      refine ⟨{ rasterRotate := some rot },
        some (env.strOfData (env.rasterData env.printerModel
          (env.openImage ctx.file_name) ctx.label_size true rot)), ?_⟩
      simp [print_image, hctx, hex, hrot, hdbg]
    · intro hdbg hctor hwrite hdispose
      refine ⟨{ rasterRotate := some rot, backendConstructed := true, writeInvoked := true,
                bytesTransmitted := some (env.rasterData env.printerModel
                  (env.openImage ctx.file_name) ctx.label_size true rot) }, ?_⟩
      simp [print_image, hctx, hex, hrot, hdbg, hctor, hwrite, hdispose]
    · intro hdbg emsg hctor hwrite
      refine ⟨{ rasterRotate := some rot, backendConstructed := true,
                writeInvoked := true }, ?_⟩
      simp [print_image, hctx, hex, hrot, hdbg, hctor, hwrite]

/-- Witness for the amended C4: the broken live environment reports the
caught write exception with `success = false` and its message, and the
healthy live environment completes with `success = true`. -/
theorem print_success_reporting_witness :
    (∃ eff, print_image testEnvBroken testDir [] =
      .ok { success := false, message := some "usb write failed" } eff) ∧
    (∃ eff, print_image testEnvLive testDir [] = .ok { success := true } eff) := by
  constructor
  · exact ((print_success_reporting testEnvBroken testDir []).2.2
      ⟨"image.png", "62", ENDLESS_LABEL, "standard"⟩ (.deg 0) rfl (by decide)
      (by decide)).2.2 rfl "usb write failed" rfl rfl
  · exact (((print_success_reporting testEnvLive testDir []).2.2
      ⟨"image.png", "62", ENDLESS_LABEL, "standard"⟩ (.deg 0) rfl (by decide)
      (by decide)).2.1 rfl rfl rfl rfl)

/-- Claim C5, evaluated on the code: for a preview or delete request whose
label size `99` is not in the catalog, the handler does NOT return a plain
message built from the lookup failure — both handlers evaluate `e.msg` on
the caught `KeyError`, which has no such attribute, so an `AttributeError`
escapes to the caller instead.  The claim describes the evident intent of
`return e.msg`; the attribute access is the slip. -/
theorem lookup_error_message_eval :
    get_preview_image testEnv testDir [("label_size", "99")] "png" =
      .uncaught ⟨"AttributeError", ["KeyError object has no attribute msg"]⟩ ∧
    delete_image testEnv testDir [("label_size", "99")] =
      (.uncaught ⟨"AttributeError", ["KeyError object has no attribute msg"]⟩, testDir) ∧
    get_label_context testEnv.catalog [("label_size", "99")] =
      .error ⟨"KeyError", ["99"]⟩ :=
  ⟨rfl, rfl, rfl⟩

/-- Claim C6: an upload whose filename's extension is outside
{.png, .jpg, .jpeg, .bmp} gets the plain error message and leaves the
directory and the image store's filename list untouched; an allow-listed
extension gets saved under its original name, after which the store is
refreshed. -/
theorem upload_extension_gate (dir : List DirEntry) (file_names : List String)
    (u : Upload) :
    ((splitext u.filename).2 ∉ IMAGE_EXTENSIONS →
      do_upload dir file_names u =
        ⟨.errorMsg "File extension not allowed.", dir, file_names⟩) ∧
    ((splitext u.filename).2 ∈ IMAGE_EXTENSIONS →
      do_upload dir file_names u =
        ⟨.redirect "/labeldesigner", saveFile dir u.filename,
          update_files (saveFile dir u.filename)⟩) := by
  constructor
  · intro hno
    simp [do_upload, hno]
  · intro hyes
    simp [do_upload, hyes]

/-- Witness for C6: `virus.exe` is rejected with the store untouched, and
`photo.png` is saved and the store refreshed. -/
theorem upload_extension_gate_witness :
    do_upload testDir ["image.png"] ⟨"virus.exe"⟩ =
      ⟨.errorMsg "File extension not allowed.", testDir, ["image.png"]⟩ ∧
    do_upload testDir ["image.png"] ⟨"photo.png"⟩ =
      ⟨.redirect "/labeldesigner", saveFile testDir "photo.png",
        ["image.png", "photo.png"]⟩ := by
  constructor
  · exact (upload_extension_gate testDir ["image.png"] ⟨"virus.exe"⟩).1 (by decide)
  · have h := (upload_extension_gate testDir ["image.png"] ⟨"photo.png"⟩).2 (by decide)
    rw [h]
    decide

/-- Claim C9: the `rotate` variable is bound exactly when the parsed label
kind is endless, die-cut, or round die-cut; for a context whose kind is
outside these three, `print_image` hits an unbound-variable use (an
uncaught `NameError`) instead of producing a response. -/
theorem rotate_dispatch_not_total :
    (∀ k o, (rotateFor k o).isSome = true ↔
      k = ENDLESS_LABEL ∨ k = DIE_CUT_LABEL ∨ k = ROUND_DIE_CUT_LABEL) ∧
    (∀ {Image : Type} (env : Env Image) (dir : List DirEntry)
        (d : List (String × String)) (ctx : LabelContext),
      get_label_context env.catalog d = .ok ctx →
      image_exists dir ctx.file_name = true →
      ¬(ctx.kind = ENDLESS_LABEL ∨ ctx.kind = DIE_CUT_LABEL ∨
        ctx.kind = ROUND_DIE_CUT_LABEL) →
      print_image env dir d =
        .uncaught ⟨"NameError", ["name rotate is not defined"]⟩
          { rasterRotate := none, backendConstructed := false,
            writeInvoked := false, bytesTransmitted := none }) := by
  constructor
  · intro k o
    by_cases h1 : k = ENDLESS_LABEL
    · simp [rotateFor, h1]
    · by_cases h2 : k = ROUND_DIE_CUT_LABEL ∨ k = DIE_CUT_LABEL
      · simp [rotateFor, h1]
        tauto
      · simp [rotateFor, h1, h2]
        tauto
  · intro Image env dir d ctx hctx hex hk
    have hnone : rotateFor ctx.kind ctx.orientation = none := by
      push_neg at hk
      simp [rotateFor, hk.1, hk.2.1, hk.2.2]
    simp [print_image, hctx, hex, hnone]

/-- Witness for C9: the size `odd` has kind 7, outside the three families,
and a concrete print request for it dies with the `NameError`. -/
theorem rotate_dispatch_not_total_witness :
    print_image testEnv testDir [("label_size", "odd")] =
      .uncaught ⟨"NameError", ["name rotate is not defined"]⟩
        { rasterRotate := none, backendConstructed := false,
          writeInvoked := false, bytesTransmitted := none } :=
  rotate_dispatch_not_total.2 testEnv testDir [("label_size", "odd")]
    ⟨"image.png", "odd", 7, "standard"⟩ rfl (by decide) (by decide)

/-- Claim C7: for identical label-context parameters, the preview response
with `return_format = base64` is a valid base64 text whose decoding equals,
byte for byte, the PNG byte response of the default return format.  (PNG
serialisation yields bytes, hence the range hypothesis.) -/
theorem preview_base64_matches_png {Image : Type} (env : Env Image)
    (dir : List DirEntry) (d : List (String × String)) (bts : List Nat) (s : List Char)
    (hbytes : ∀ im, ∀ b ∈ env.pngBytes im, b < 256)
    (hpng : get_preview_image env dir d "png" = .png bts)
    (hb64 : get_preview_image env dir d "base64" = .base64Text s) :
    b64decode s = some bts := by
  cases hctx : get_label_context env.catalog d with
  | error e =>
      exfalso
      simp [get_preview_image, hctx, excMsgAttr] at hpng
  | ok ctx =>
      by_cases hex : image_exists dir ctx.file_name = true
      · simp only [get_preview_image, hctx] at hpng hb64
        rw [hex] at hpng hb64
        simp at hpng hb64
        rw [← hb64, ← hpng]
        exact b64decode_b64encode _ (hbytes _)
      · rw [Bool.not_eq_true] at hex
        exfalso
        simp [get_preview_image, hctx, hex] at hpng

/-- Witness for C7: with the concrete fixture, the PNG preview bytes are
`[137, 80, 78, 71]`, the base64 preview is `iVBORw==`, and decoding recovers
the bytes. -/
theorem preview_base64_matches_png_witness :
    b64decode "iVBORw==".data = some [137, 80, 78, 71] :=
  preview_base64_matches_png testEnv testDir [] [137, 80, 78, 71] "iVBORw==".data
    (by intro im; show ∀ b ∈ [137, 80, 78, 71], b < 256; decide) rfl rfl

/-- Claim C8: the directory scan only lists regular files with allow-listed
extensions; acceptance equals membership in that scan; a preview, delete, or
print request whose filename fails the check is rejected with the
missing-image error before acting; and one that acts has its filename in the
scan of that request. -/
theorem accepted_filename_invariant {Image : Type} (env : Env Image)
    (dir : List DirEntry) (d : List (String × String)) (rf : String) :
    (∀ f ∈ update_files dir, ∃ e, e ∈ dir ∧ e.name = f ∧ e.isFile = true ∧
      (splitext f).2 ∈ IMAGE_EXTENSIONS) ∧
    (∀ fn, image_exists dir fn = true ↔ fn ∈ update_files dir) ∧
    (∀ ctx, get_label_context env.catalog d = .ok ctx →
      image_exists dir ctx.file_name = false →
      get_preview_image env dir d rf = .body "Image not in directory" ∧
      delete_image env dir d = (.body "Image not in directory", dir) ∧
      print_image env dir d =
        .ok { success := false, message := some "Image not in directory" }
          { rasterRotate := none, backendConstructed := false,
            writeInvoked := false, bytesTransmitted := none }) ∧
    (∀ ctx, get_label_context env.catalog d = .ok ctx →
      (∀ bts, get_preview_image env dir d rf = .png bts →
        ctx.file_name ∈ update_files dir) ∧
      (∀ s, get_preview_image env dir d rf = .base64Text s →
        ctx.file_name ∈ update_files dir) ∧
      (∀ t, (delete_image env dir d).1 = .redirect t →
        ctx.file_name ∈ update_files dir) ∧
      (∀ rot, (print_image env dir d).effects.rasterRotate = some rot →
        ctx.file_name ∈ update_files dir)) := by
  refine ⟨?_, ?_, ?_, ?_⟩
  · intro f hf
    simp only [update_files, List.mem_map, List.mem_filter] at hf
    obtain ⟨e, ⟨he, hp⟩, rfl⟩ := hf
    rw [Bool.and_eq_true] at hp
    exact ⟨e, he, rfl, hp.1, by simpa using hp.2⟩
  · intro fn
    exact image_exists_iff_mem dir fn
  · intro ctx hctx hex
    refine ⟨?_, ?_, ?_⟩
    · simp [get_preview_image, hctx, hex]
    · simp [delete_image, hctx, hex]
    · simp [print_image, hctx, hex]
  · intro ctx hctx
    have hmem : image_exists dir ctx.file_name = true →
        ctx.file_name ∈ update_files dir :=
      fun h => (image_exists_iff_mem dir ctx.file_name).1 h
    refine ⟨?_, ?_, ?_, ?_⟩
    · intro bts h
      by_cases hex : image_exists dir ctx.file_name = true
      · exact hmem hex
      · rw [Bool.not_eq_true] at hex
        exfalso
        simp [get_preview_image, hctx, hex] at h
    · intro s h
      by_cases hex : image_exists dir ctx.file_name = true
      · exact hmem hex
      · rw [Bool.not_eq_true] at hex
        exfalso
        simp [get_preview_image, hctx, hex] at h
    · intro t h
      by_cases hex : image_exists dir ctx.file_name = true
      · exact hmem hex
      · rw [Bool.not_eq_true] at hex
        exfalso
        simp [delete_image, hctx, hex] at h
    · intro rot h
      by_cases hex : image_exists dir ctx.file_name = true
      · exact hmem hex
      · rw [Bool.not_eq_true] at hex
        exfalso
        simp [print_image, hctx, hex, PrintOutcome.effects] at h

/-- Witness for C8: in the concrete directory, the scan is exactly
`[image.png]` (the `.txt` file and the non-regular `sub.png` are excluded),
a delete of the listed file acts, and one of `missing.png` is rejected. -/
theorem accepted_filename_invariant_witness :
    update_files testDir = ["image.png"] ∧
    delete_image testEnv testDir [("file_name", "missing.png")] =
      (.body "Image not in directory", testDir) ∧
    "image.png" ∈ update_files testDir := by
  refine ⟨by decide, ?_, ?_⟩
  · exact ((accepted_filename_invariant testEnv testDir
      [("file_name", "missing.png")] "png").2.2.1
      ⟨"missing.png", "62", ENDLESS_LABEL, "standard"⟩ rfl (by decide)).2.1
  · exact ((accepted_filename_invariant testEnv testDir [] "png").2.1
      "image.png").1 (by decide)

/-- Claim C10: the preview handler transposes exactly for the orientation
values `rotated+90` and `rotated-90`; the bare value `rotated` — accepted by
the CLI as a default orientation — leaves the preview unrotated, while the
print handler maps it to a 90-degree rotation directive for endless labels,
so preview and print disagree on `rotated`. -/
theorem preview_print_rotated_disagree {Image : Type} (env : Env Image)
    (dir : List DirEntry) (d : List (String × String)) (ctx : LabelContext)
    (hctx : get_label_context env.catalog d = .ok ctx)
    (hex : image_exists dir ctx.file_name = true)
    (hor : ctx.orientation = "rotated") :
    "rotated" ∈ defaultOrientationChoices ∧
    (∀ o, (previewTranspose o).isSome = true ↔ o = "rotated+90" ∨ o = "rotated-90") ∧
    get_preview_image env dir d "png" = .png (env.pngBytes (env.openImage ctx.file_name)) ∧
    (ctx.kind = ENDLESS_LABEL →
      (print_image env dir d).effects.rasterRotate = some (.deg 90)) := by
  refine ⟨by simp [defaultOrientationChoices], ?_, ?_, ?_⟩
  · intro o
    by_cases h1 : o = "rotated+90"
    · simp [previewTranspose, h1]
    · by_cases h2 : o = "rotated-90"
      · simp [previewTranspose, h1, h2]
      · simp [previewTranspose, h1, h2]
  · simp only [get_preview_image, hctx]
    rw [hex]
    simp [hor, previewTranspose]
  · intro hk
    refine print_image_rasterRotate env dir d ctx _ hctx hex ?_
    simp [rotateFor, hk, hor]

/-- Witness for C10: a concrete endless-label request with
`orientation = rotated` previews the raw (untransposed) image but prints
with rotation directive 90. -/
theorem preview_print_rotated_disagree_witness :
    get_preview_image testEnv testDir [("orientation", "rotated")] "png" =
      .png [137, 80, 78, 71] ∧
    (print_image testEnv testDir [("orientation", "rotated")]).effects.rasterRotate =
      some (.deg 90) := by
  have h := preview_print_rotated_disagree testEnv testDir
    [("orientation", "rotated")] ⟨"image.png", "62", ENDLESS_LABEL, "rotated"⟩
    rfl (by decide) rfl
  exact ⟨h.2.2.1, h.2.2.2 rfl⟩

end BrotherQLWeb
